import Mathlib

/-!
Verification of the navigation command layer of rapp-robots-api
(src/cpp/includes/rapp-robots-api/navigation/navigation.hpp).

The repository ships only the public header (pimpl declarations plus their
documentation); the arbitration, execution-tracking and path-following
behaviour lives behind `NavigationImpl`, which is not part of the sources.
Following the specification, those parts are modelled here explicitly; each
such definition carries a doc comment starting `Modelled from the spec:`.
Value types (`pose`, `pose_stamped`) come from `rapp::object`, also outside
the shipped sources, and are modelled from the spec's data-model section.

Floating-point payloads (angles, velocities, coordinates) are modelled as
rationals: none of the verified behaviour depends on rounding, only on
selection, equality and control flow.
-/

namespace RappNav

/-- The joints of the Head chain, as listed in the source table. -/
def headJoints : List String := ["HeadYaw", "HeadPitch"]

/-- The joints of the LArm chain, as listed in the source table. -/
def lArmJoints : List String :=
  ["LShoulderPitch", "LShoulderRoll", "LElbowYaw", "LElbowRoll", "LWristYaw", "LHand"]

/-- The joints of the LLeg chain, as listed in the source table
(the table files RAnkleRoll under LLeg; kept as the source writes it). -/
def lLegJoints : List String :=
  ["LHipYawPitch", "LHipRoll", "LHipPitch", "LKneePitch", "LAnklePitch", "RAnkleRoll"]

/-- The joints of the RLeg chain, as listed in the source table
(the table files LAnkleRoll under RLeg; kept as the source writes it). -/
def rLegJoints : List String :=
  ["RHipYawPitch", "RHipRoll", "RHipPitch", "RKneePitch", "RAnklePitch", "LAnkleRoll"]

/-- The joints of the RArm chain, as listed in the source table. -/
def rArmJoints : List String :=
  ["RShoulderPitch", "RShoulderRoll", "RElbowYaw", "RElbowRoll", "RWristYaw", "RHand"]

/-- All joints of the full robot, chain by chain as in the source table. -/
def allJoints : List String :=
  headJoints ++ lArmJoints ++ lLegJoints ++ rLegJoints ++ rArmJoints

/-- Joints marked `!` in the source table: absent on NAO body type H21. -/
def h21AbsentJoints : List String := ["LWristYaw", "LHand", "RWristYaw", "RHand"]

/-- Hardware variants distinguished by the source table: H21 lacks the
wrist/hand joints, the full body type has every joint. -/
inductive BodyVariant
  | H21
  | Full
deriving DecidableEq, Repr

/-- Modelled from the spec: JointAvailability — per hardware variant, the set
of joints that physically exist (H21 lacks the wrist/hand joints). -/
def availableJoints : BodyVariant → List String
  | .Full => allJoints
  | .H21 => allJoints.filter (fun j => ¬ (j ∈ h21AbsentJoints))

/-- The internal error taxonomy of the spec's error-handling design. -/
inductive MotionError
  | UnsupportedJoint
  | UnsafePosture
  | UnsupportedMotionMode
  | Busy
  | InvalidPath
  | LocalizationUnavailable
  | CommunicationError
  | ActuationFailure
deriving DecidableEq, Repr

/-- The independent concurrency domains of the spec's execution tracker. -/
inductive ExecutionSlot
  | Locomotion
  | Arms
  | Head
deriving DecidableEq, Repr

/-- Kinds of motion commands the arbiter dispatches. -/
inductive CmdKind
  | Velocity
  | GoalPose
  | JointTarget
  | Posture
  | GazePoint
  | ArmPoint
deriving DecidableEq, Repr

/-- One command currently held by a slot: its kind and whether it is
blocking. -/
structure ActiveCmd where
  kind : CmdKind
  blocking : Bool
deriving DecidableEq, Repr

/-- Modelled from the spec: ExecutionTracker state. Each slot holds the list
of commands currently active on it; the spec's invariant is that this list
never exceeds one element. -/
structure TrackerState where
  locomotion : List ActiveCmd
  arms : List ActiveCmd
  head : List ActiveCmd
deriving DecidableEq, Repr

/-- Commands active on one slot. -/
def TrackerState.get (st : TrackerState) : ExecutionSlot → List ActiveCmd
  | .Locomotion => st.locomotion
  | .Arms => st.arms
  | .Head => st.head

/-- Replace the commands active on one slot. -/
def TrackerState.upd (st : TrackerState) : ExecutionSlot → List ActiveCmd → TrackerState
  | .Locomotion, l => { st with locomotion := l }
  | .Arms, l => { st with arms := l }
  | .Head, l => { st with head := l }

/-- The tracker state at session start: every slot Idle. -/
def initialTracker : TrackerState := ⟨[], [], []⟩

/-- Modelled from the spec: dispatch of a blocking command. Permitted only
from Idle; a blocking request to a busy slot fails `Busy` rather than
queuing. -/
def dispatchBlocking (st : TrackerState) (s : ExecutionSlot) (k : CmdKind) :
    Except MotionError TrackerState :=
  match st.get s with
  | [] => .ok (st.upd s [⟨k, true⟩])
  | _ => .error .Busy

/-- Modelled from the spec: dispatch of a non-blocking (velocity/stop
semantics) command — it queue-replaces whatever the slot held. -/
def dispatchBackground (st : TrackerState) (s : ExecutionSlot) (k : CmdKind) :
    TrackerState :=
  st.upd s [⟨k, false⟩]

/-- Modelled from the spec: the Actuation collaborator reports a terminal
outcome for the blocking command on a slot; the slot returns to Idle
(success and failure alike). -/
def completeCmd (st : TrackerState) (s : ExecutionSlot) : TrackerState :=
  st.upd s []

/-- Modelled from the spec: `stop` on a slot — any state transitions to
Idle. -/
def stopSlot (st : TrackerState) (s : ExecutionSlot) : TrackerState :=
  st.upd s []

/-- One tracker transition: blocking dispatch, background dispatch,
completion report, or stop. -/
inductive TrackerStep : TrackerState → TrackerState → Prop
  | blockingOk {st st' : TrackerState} (s : ExecutionSlot) (k : CmdKind) :
      dispatchBlocking st s k = .ok st' → TrackerStep st st'
  | background {st : TrackerState} (s : ExecutionSlot) (k : CmdKind) :
      TrackerStep st (dispatchBackground st s k)
  | complete {st : TrackerState} (s : ExecutionSlot) :
      TrackerStep st (completeCmd st s)
  | stop {st : TrackerState} (s : ExecutionSlot) :
      TrackerStep st (stopSlot st s)

/-- Tracker states reachable from session start. -/
inductive TrackerReachable : TrackerState → Prop
  | init : TrackerReachable initialTracker
  | step {st st' : TrackerState} :
      TrackerReachable st → TrackerStep st st' → TrackerReachable st'

theorem get_upd_self (st : TrackerState) (s : ExecutionSlot) (l : List ActiveCmd) :
    (st.upd s l).get s = l := by
  cases s <;> rfl

theorem get_upd_other (st : TrackerState) (s t : ExecutionSlot) (l : List ActiveCmd)
    (h : t ≠ s) : (st.upd s l).get t = st.get t := by
  cases s <;> cases t <;> first | rfl | exact absurd rfl h

/-- Updating a slot with at most one command preserves the per-slot bound. -/
theorem upd_le_one {st : TrackerState} (ih : ∀ s : ExecutionSlot, (st.get s).length ≤ 1)
    (t : ExecutionSlot) (l : List ActiveCmd) (hl : l.length ≤ 1) :
    ∀ s : ExecutionSlot, ((st.upd t l).get s).length ≤ 1 := by
  intro s
  by_cases hs : s = t
  · subst hs; rw [get_upd_self]; exact hl
  · rw [get_upd_other _ _ _ _ hs]; exact ih s

/-- One tracker step preserves the per-slot bound. -/
theorem step_at_most_one {st st' : TrackerState} (hstep : TrackerStep st st')
    (ih : ∀ s : ExecutionSlot, (st.get s).length ≤ 1) :
    ∀ s : ExecutionSlot, (st'.get s).length ≤ 1 := by
  cases hstep with
  | blockingOk t k hok =>
    unfold dispatchBlocking at hok
    cases hget : st.get t with
    | nil =>
      rw [hget] at hok
      simp only [Except.ok.injEq] at hok
      rw [← hok]
      exact upd_le_one ih t _ (by simp)
    | cons a l => rw [hget] at hok; cases hok
  | background t k => exact upd_le_one ih t _ (by simp)
  | complete t => exact upd_le_one ih t _ (by simp)
  | stop t => exact upd_le_one ih t _ (by simp)

/-- Every slot of a reachable tracker state holds at most one command. -/
theorem reachable_at_most_one {st : TrackerState} (h : TrackerReachable st) :
    ∀ s : ExecutionSlot, (st.get s).length ≤ 1 := by
  induction h with
  | init => intro s; cases s <;> simp [initialTracker, TrackerState.get]
  | step _ hstep ih => exact step_at_most_one hstep ih

/-- The `rapp::object::pose` value type, modelled from the spec's data
model: position and planar/spatial orientation, rationals standing in for
floats. -/
structure Pose where
  x : ℚ
  y : ℚ
  z : ℚ
  theta : ℚ
deriving DecidableEq, Repr

/-- Identifying metadata of a stamped pose: sequence index and timestamp. -/
structure MsgHeader where
  seq : Nat
  stamp : ℚ
deriving DecidableEq, Repr

/-- The `rapp::object::pose_stamped` value type, modelled from the spec's
data model: a `Pose` plus identifying metadata. -/
structure PoseStamped where
  header : MsgHeader
  pose : Pose
deriving DecidableEq, Repr

/-- One call issued to the Actuation collaborator, recorded for the
no-actuator-contact properties. -/
inductive ActuationCall
  | motion (targets : List (String × ℚ)) (speed : ℚ)
  | posture (name : String) (speed : ℚ)
  | goal (p : Pose)
  | velocity3 (x y theta : ℚ)
  | velocity2 (x theta : ℚ)
  | stop
deriving DecidableEq, Repr

/-- The external collaborators of the spec's interface section: Actuation
reachability and capability flag, the Localization acceptance predicate, the
polled ObstacleSignal, and the per-waypoint actuation outcome. -/
structure Collaborators where
  reachable : Bool
  holonomic : Bool
  acceptPose : Pose → Bool
  obstacle : Nat → Bool
  goalOutcome : Nat → Bool

/-- The primary member of the coupled hip group. -/
def lHipName : String := "LHipYawPitch"

/-- The secondary member of the coupled hip group. -/
def rHipName : String := "RHipYawPitch"

/-- Modelled from the spec: CoupledJointGroup precedence resolution.
LHipYawPitch and RHipYawPitch share one motor; when both are targeted,
LHipYawPitch's requested angle silently overrides the secondary's. -/
def resolveCoupled (req : List (String × ℚ)) : List (String × ℚ) :=
  match req.find? (fun t => t.1 == lHipName) with
  | some t0 => req.map (fun t => if t.1 == rHipName then (t.1, t0.2) else t)
  | none => req

/-- All requested joint names exist on the active hardware variant. -/
def jointsOk (v : BodyVariant) (names : List String) : Bool :=
  names.all (fun j => decide (j ∈ availableJoints v))

/-- Modelled from the spec: `move_joint` as arbitrated by CommandArbiter.
The whole request is validated against JointAvailability before dispatch
(atomic validation, failure kind `UnsupportedJoint`); on success the coupled
joints are resolved and a single actuation intent is forwarded. Returns the
call result together with the list of Actuation calls made. -/
def move_joint (v : BodyVariant) (req : List (String × ℚ)) (speed : ℚ) :
    Except MotionError Unit × List ActuationCall :=
  if jointsOk v (req.map Prod.fst) then
    (.ok (), [.motion (resolveCoupled req) speed])
  else
    (.error .UnsupportedJoint, [])

/-- Modelled from the spec: `move_stop`. Valid regardless of current slot
state, transitions Locomotion to Idle, and returns success unless the
Actuation collaborator itself is unreachable. -/
def move_stop (env : Collaborators) (st : TrackerState) :
    Except MotionError Unit × TrackerState :=
  if env.reachable then (.ok (), stopSlot st .Locomotion)
  else (.error .CommunicationError, st)

/-- The postures tagged safe-for-rest by the source documentation. -/
def safeForRest : List String := ["Crouch", "Sit", "SitRelax", "LyingBelly", "LyingBack"]

/-- Modelled from the spec: `rest` validates that the posture is in the
safe-for-rest set before dispatch; otherwise it fails `UnsafePosture`
without touching actuators or slot state. -/
def rest (env : Collaborators) (st : TrackerState) (posture : String) :
    Except MotionError Unit × TrackerState × List ActuationCall :=
  if posture ∈ safeForRest then
    if env.reachable then (.ok (), st, [.posture posture 1])
    else (.error .CommunicationError, st, [])
  else
    (.error .UnsafePosture, st, [])

/-- Modelled from the spec: the 3-parameter `move_vel (x, y, theta)` for
holonomic bases. The arbiter queries `holonomicCapable()`; the wrong form
for the physical base fails `UnsupportedMotionMode` at dispatch time,
otherwise the velocity command queue-replaces on the Locomotion slot. -/
def move_vel3 (env : Collaborators) (st : TrackerState) (x y theta : ℚ) :
    Except MotionError Unit × TrackerState × List ActuationCall :=
  if env.holonomic then
    (.ok (), dispatchBackground st .Locomotion .Velocity, [.velocity3 x y theta])
  else
    (.error .UnsupportedMotionMode, st, [])

/-- Modelled from the spec: the 2-parameter `move_vel (x, theta)` for
non-holonomic (differential-drive) bases; the wrong form for the physical
base fails `UnsupportedMotionMode`, otherwise the command queue-replaces on
the Locomotion slot. -/
def move_vel2 (env : Collaborators) (st : TrackerState) (x theta : ℚ) :
    Except MotionError Unit × TrackerState × List ActuationCall :=
  if env.holonomic then
    (.error .UnsupportedMotionMode, st, [])
  else
    (.ok (), dispatchBackground st .Locomotion .Velocity, [.velocity2 x theta])

/-- Result of path following: the whole path was traversed, or it was
aborted on an obstacle, carrying the index of the last waypoint reached
(none when the obstacle appeared before the first waypoint). -/
inductive PathResult
  | Completed
  | Aborted (lastReached : Option Nat)
deriving DecidableEq, Repr

/-- Modelled from the spec: the PathFollower loop from poll index `i`.
Before each waypoint dispatch the obstacle signal is polled; on an obstacle
`move_stop` is invoked and the loop returns `Aborted` with the last reached
index. Otherwise a blocking goal-pose command is dispatched through the
arbiter to Locomotion; on actuation failure the remaining path is aborted
with that failure; the slot returns to Idle when the blocking command
completes. -/
def followFrom (env : Collaborators) (st : TrackerState) (i : Nat) :
    List PoseStamped → Except MotionError PathResult × TrackerState × List ActuationCall
  | [] => (.ok .Completed, st, [])
  | p :: ps =>
    if env.obstacle i then
      (.ok (.Aborted (if i = 0 then none else some (i - 1))),
        (move_stop env st).2, [.stop])
    else
      match dispatchBlocking st .Locomotion .GoalPose with
      | .error e => (.error e, st, [])
      | .ok stBusy =>
        if env.goalOutcome i then
          let r := followFrom env (completeCmd stBusy .Locomotion) (i + 1) ps
          (r.1, r.2.1, .goal p.pose :: r.2.2)
        else
          (.error .ActuationFailure, completeCmd stBusy .Locomotion, [.goal p.pose])

/-- Modelled from the spec: `move_along_path`. An empty path fails fast with
`InvalidPath` without contacting Actuation; otherwise the waypoints are
followed in sequence order starting at poll index 0. -/
def move_along_path (env : Collaborators) (st : TrackerState)
    (poses : List PoseStamped) :
    Except MotionError PathResult × TrackerState × List ActuationCall :=
  match poses with
  | [] => (.error .InvalidPath, st, [])
  | _ :: _ => followFrom env st 0 poses

/-- Modelled from the spec: the Localization collaborator stubbed as
identity storage — the stored global pose plus the metadata source for
stamping (sequence counter and clock). -/
structure LocState where
  stored : Pose
  seqCounter : Nat
  clock : ℚ
deriving DecidableEq, Repr

/-- Modelled from the spec: `set_global_pose` pushes an externally estimated
pose into the Localization collaborator; success reflects exactly whether
the collaborator accepted the correction. -/
def set_global_pose (env : Collaborators) (loc : LocState) (rapp_pose : Pose) :
    Bool × LocState :=
  if env.acceptPose rapp_pose then (true, { loc with stored := rapp_pose })
  else (false, loc)

/-- Modelled from the spec: `get_global_pose` queries the Localization
collaborator for the current global pose and returns it as a stamped pose,
the stamp metadata produced fresh from the collaborator's sequence counter
and clock. -/
def get_global_pose (loc : LocState) : PoseStamped × LocState :=
  (⟨⟨loc.seqCounter, loc.clock⟩, loc.stored⟩, { loc with seqCounter := loc.seqCounter + 1 })

/-! ### Concrete collaborator configurations used by the witnesses -/

/-- A reachable, non-holonomic robot whose localization accepts every
correction, with an obstacle appearing at poll index 2 and every goal-pose
dispatch succeeding. -/
def envW : Collaborators :=
  { reachable := true
    holonomic := false
    acceptPose := fun _ => true
    obstacle := fun n => decide (n = 2)
    goalOutcome := fun _ => true }

/-- A reachable holonomic robot with no obstacles. -/
def envHolo : Collaborators :=
  { reachable := true
    holonomic := true
    acceptPose := fun _ => true
    obstacle := fun _ => false
    goalOutcome := fun _ => true }

/-- A configuration whose Actuation collaborator is unreachable. -/
def envDown : Collaborators :=
  { reachable := false
    holonomic := false
    acceptPose := fun _ => true
    obstacle := fun _ => false
    goalOutcome := fun _ => true }

/-- A concrete waypoint used by the path witnesses. -/
def wp (n : Nat) : PoseStamped := ⟨⟨n, 0⟩, ⟨n, 0, 0, 0⟩⟩

/-- The posture name used by the rest witness. -/
def standPosture : String := "Stand"

/-! ### Theorems for the claims -/

/-- A tracker state with one blocking command active on Locomotion,
reachable from session start by one blocking dispatch. -/
def stBusyW : TrackerState := ⟨[⟨.GoalPose, true⟩], [], []⟩

/-- The joint request of the coupled-hip witness: conflicting angles for
the two hip joints. -/
def reqW : List (String × ℚ) := [(lHipName, 1), (rHipName, 2)]

/-- C1: while a blocking command is outstanding on a slot of a reachable
tracker state, a second blocking command to the same slot fails `Busy`
(it is not queued), a blocking command to a different, idle slot succeeds,
and no slot ever holds two active commands at once. -/
theorem busy_rule_and_slot_invariant (st : TrackerState) (s s' : ExecutionSlot)
    (c : ActiveCmd) (k k' : CmdKind)
    (hreach : TrackerReachable st)
    (hbusy : st.get s = [c]) (hblock : c.blocking = true)
    (hne : s' ≠ s) (hidle : st.get s' = []) :
    dispatchBlocking st s k = .error .Busy ∧
    (∃ st2, dispatchBlocking st s' k' = .ok st2) ∧
    ∀ t : ExecutionSlot, (st.get t).length ≤ 1 := by
  refine ⟨?_, ?_, reachable_at_most_one hreach⟩
  · unfold dispatchBlocking
    rw [hbusy]
  · unfold dispatchBlocking
    rw [hidle]
    exact ⟨_, rfl⟩

theorem busy_rule_and_slot_invariant_witness :
    dispatchBlocking stBusyW .Locomotion .GoalPose = .error .Busy ∧
    (∃ st2, dispatchBlocking stBusyW .Arms .JointTarget = .ok st2) ∧
    ∀ t : ExecutionSlot, (stBusyW.get t).length ≤ 1 :=
  busy_rule_and_slot_invariant stBusyW .Locomotion .Arms ⟨.GoalPose, true⟩
    .GoalPose .JointTarget
    (TrackerReachable.step TrackerReachable.init
      (TrackerStep.blockingOk .Locomotion .GoalPose rfl))
    rfl rfl (by decide) rfl

/-- C2: a `move_joint` request targeting both hip joints with conflicting
angles is resolved to LHipYawPitch's requested angle — every RHipYawPitch
entry of the forwarded actuation intent carries the primary's angle — and
the call succeeds (the conflict is not an error). -/
theorem coupled_hip_precedence (v : BodyVariant) (req : List (String × ℚ))
    (speed a b : ℚ)
    (hfind : req.find? (fun t => t.1 == lHipName) = some (lHipName, a))
    (hb : (rHipName, b) ∈ req) (hab : a ≠ b)
    (hok : jointsOk v (req.map Prod.fst) = true) :
    (move_joint v req speed).1 = .ok () ∧
    (move_joint v req speed).2 = [.motion (resolveCoupled req) speed] ∧
    (lHipName, a) ∈ resolveCoupled req ∧
    (rHipName, a) ∈ resolveCoupled req ∧
    ∀ c : ℚ, (rHipName, c) ∈ resolveCoupled req → c = a := by
  have hres : resolveCoupled req =
      req.map (fun t => if t.1 == rHipName then (t.1, a) else t) := by
    unfold resolveCoupled
    rw [hfind]
  have hLR : (lHipName == rHipName) = false := by decide
  have hRR : (rHipName == rHipName) = true := by decide
  refine ⟨by simp [move_joint, hok], by simp [move_joint, hok], ?_, ?_, ?_⟩
  · rw [hres]
    have hmemL : (lHipName, a) ∈ req := List.mem_of_find?_eq_some hfind
    have := List.mem_map_of_mem
      (fun t => if t.1 == rHipName then (t.1, a) else t) hmemL
    simpa [hLR] using this
  · rw [hres]
    have := List.mem_map_of_mem
      (fun t => if t.1 == rHipName then (t.1, a) else t) hb
    simpa [hRR] using this
  · intro c hc
    rw [hres] at hc
    rcases List.mem_map.mp hc with ⟨t', ht', heq⟩
    by_cases h1 : (t'.1 == rHipName) = true
    · rw [if_pos h1] at heq
      exact (Prod.mk.injEq _ _ _ _ ▸ heq).2.symm
    · rw [if_neg h1] at heq
      exfalso
      apply h1
      rw [heq]
      exact hRR

theorem coupled_hip_precedence_witness :
    (move_joint .Full reqW (1 / 2)).1 = .ok () ∧
    (move_joint .Full reqW (1 / 2)).2 = [.motion (resolveCoupled reqW) (1 / 2)] ∧
    (lHipName, (1 : ℚ)) ∈ resolveCoupled reqW ∧
    (rHipName, (1 : ℚ)) ∈ resolveCoupled reqW ∧
    ∀ c : ℚ, (rHipName, c) ∈ resolveCoupled reqW → c = 1 :=
  coupled_hip_precedence .Full reqW (1 / 2) 1 2 rfl (by decide) (by norm_num)
    (by decide)

/-- C3: a `move_joint` request naming any joint absent on the active
hardware variant is rejected whole before dispatch — it returns failure of
kind `UnsupportedJoint` and makes no Actuation call, so no named joint is
partially applied. -/
theorem move_joint_unsupported_rejected (v : BodyVariant) (req : List (String × ℚ))
    (speed : ℚ) (j : String) (hj : j ∈ req.map Prod.fst)
    (habs : ¬ j ∈ availableJoints v) :
    move_joint v req speed = (.error .UnsupportedJoint, []) := by
  have hfalse : jointsOk v (req.map Prod.fst) = false := by
    unfold jointsOk
    rw [List.all_eq_false]
    exact ⟨j, hj, by simp [habs]⟩
  unfold move_joint
  rw [hfalse]
  simp

theorem move_joint_unsupported_rejected_witness :
    move_joint .H21 [(("LWristYaw" : String), (0 : ℚ))] 1 =
      (.error .UnsupportedJoint, []) :=
  move_joint_unsupported_rejected .H21 [(("LWristYaw" : String), (0 : ℚ))] 1
    ("LWristYaw") (by decide) (by decide)

/-- C4: `move_stop` is idempotent and state-independent — from any
Locomotion slot state (Idle included), it returns success when Actuation is
reachable and leaves Locomotion Idle; a second call returns the very same
result; when Actuation is unreachable it fails `CommunicationError`. -/
theorem move_stop_idempotent_state_independent (env envU : Collaborators)
    (st : TrackerState) (h : env.reachable = true) (hU : envU.reachable = false) :
    (move_stop env st).1 = .ok () ∧
    (move_stop env st).2.get .Locomotion = [] ∧
    move_stop env (move_stop env st).2 = move_stop env st ∧
    (move_stop envU st).1 = .error .CommunicationError := by
  unfold move_stop stopSlot
  rw [h, hU]
  refine ⟨rfl, ?_, ?_, rfl⟩
  · cases st; rfl
  · cases st; rfl

theorem move_stop_idempotent_state_independent_witness :
    (move_stop envW initialTracker).1 = .ok () ∧
    (move_stop envW initialTracker).2.get .Locomotion = [] ∧
    move_stop envW (move_stop envW initialTracker).2 = move_stop envW initialTracker ∧
    (move_stop envDown initialTracker).1 = .error .CommunicationError :=
  move_stop_idempotent_state_independent envW envDown initialTracker rfl rfl

/-- C5: `rest` on any posture outside the safe-for-rest set fails
`UnsafePosture`, makes no Actuation call and leaves all state untouched. -/
theorem rest_rejects_unsafe_posture (env : Collaborators) (st : TrackerState)
    (p : String) (hp : ¬ p ∈ safeForRest) :
    rest env st p = (.error .UnsafePosture, st, []) := by
  unfold rest
  rw [if_neg hp]

theorem rest_rejects_unsafe_posture_witness :
    rest envW initialTracker standPosture = (.error .UnsafePosture, initialTracker, []) :=
  rest_rejects_unsafe_posture envW initialTracker standPosture (by decide)

theorem upd_upd (st : TrackerState) (s : ExecutionSlot) (l l' : List ActiveCmd) :
    (st.upd s l).upd s l' = st.upd s l' := by
  cases st
  cases s <;> rfl

theorem upd_empty_of_get (st : TrackerState) (s : ExecutionSlot)
    (h : st.get s = []) : st.upd s [] = st := by
  cases st
  cases s <;> simp_all [TrackerState.get, TrackerState.upd]

/-- After a blocking goal-pose dispatch from an Idle Locomotion slot
completes, the tracker state is back where it started. -/
theorem complete_after_dispatch (st : TrackerState)
    (h : st.get .Locomotion = []) (c : ActiveCmd) :
    completeCmd (st.upd .Locomotion [c]) .Locomotion = st := by
  unfold completeCmd
  rw [upd_upd]
  exact upd_empty_of_get st .Locomotion h

/-- PathFollower with no obstacle and successful actuation over the whole
remaining path completes, leaves the tracker state unchanged, and has
dispatched exactly the waypoints in sequence order. -/
theorem followFrom_completed (env : Collaborators) :
    ∀ (ps : List PoseStamped) (st : TrackerState) (i : Nat),
      st.get .Locomotion = [] →
      (∀ j, j < ps.length → env.obstacle (i + j) = false ∧ env.goalOutcome (i + j) = true) →
      followFrom env st i ps =
        (.ok .Completed, st, ps.map (fun p => ActuationCall.goal p.pose))
  | [], st, i, _, _ => rfl
  | p :: ps, st, i, h0, h => by
    have hobs : env.obstacle i = false := by
      have := (h 0 (by simp)).1
      simpa using this
    have hout : env.goalOutcome i = true := by
      have := (h 0 (by simp)).2
      simpa using this
    have hd : dispatchBlocking st .Locomotion .GoalPose =
        .ok (st.upd .Locomotion [⟨.GoalPose, true⟩]) := by
      unfold dispatchBlocking
      rw [h0]
    have hrec := followFrom_completed env ps st (i + 1) h0
      (by
        intro j hj
        have := h (j + 1) (by simpa using Nat.succ_lt_succ hj)
        have harith : i + (j + 1) = i + 1 + j := by omega
        rw [harith] at this
        exact this)
    unfold followFrom
    rw [hobs, hd]
    simp only [Bool.false_eq_true, if_false, hout, if_true]
    rw [complete_after_dispatch st h0, hrec]
    simp

/-- PathFollower aborts at the first obstacle: with the obstacle signal
first true at relative poll index `k` (within the path) and every earlier
waypoint dispatched successfully, it stops and reports the last reached
waypoint. -/
theorem followFrom_aborted (env : Collaborators) :
    ∀ (ps : List PoseStamped) (k : Nat) (st : TrackerState) (i : Nat),
      st.get .Locomotion = [] →
      k < ps.length →
      (∀ j, j < k → env.obstacle (i + j) = false ∧ env.goalOutcome (i + j) = true) →
      env.obstacle (i + k) = true →
      followFrom env st i ps =
        (.ok (.Aborted (if i + k = 0 then none else some (i + k - 1))),
         (move_stop env st).2,
         (ps.take k).map (fun p => ActuationCall.goal p.pose) ++ [.stop])
  | [], k, st, i, _, hk, _, _ => absurd hk (by simp)
  | p :: ps, 0, st, i, h0, hk, h, hob => by
    have hobs : env.obstacle i = true := by simpa using hob
    unfold followFrom
    rw [hobs]
    simp
  | p :: ps, k + 1, st, i, h0, hk, h, hob => by
    have hobs : env.obstacle i = false := by
      have := (h 0 (by simp)).1
      simpa using this
    have hout : env.goalOutcome i = true := by
      have := (h 0 (by simp)).2
      simpa using this
    have hd : dispatchBlocking st .Locomotion .GoalPose =
        .ok (st.upd .Locomotion [⟨.GoalPose, true⟩]) := by
      unfold dispatchBlocking
      rw [h0]
    have harith : i + 1 + k = i + (k + 1) := by omega
    have hrec := followFrom_aborted env ps k st (i + 1) h0
      (by simpa using Nat.lt_of_succ_lt_succ hk)
      (by
        intro j hj
        have := h (j + 1) (by simpa using Nat.succ_lt_succ hj)
        have harith2 : i + (j + 1) = i + 1 + j := by omega
        rw [harith2] at this
        exact this)
      (by rw [harith]; exact hob)
    rw [harith] at hrec
    unfold followFrom
    rw [hobs, hd]
    simp only [Bool.false_eq_true, if_false, hout, if_true]
    rw [complete_after_dispatch st h0, hrec]
    simp

/-- C6: for a non-empty path from an Idle Locomotion slot, if the obstacle
signal is first reported true at poll index `i` within the path (every
earlier waypoint dispatched and completed successfully), `move_along_path`
invokes `move_stop` and returns `Aborted` carrying the index of the last
reached waypoint (`i - 1`; none when `i = 0`), having dispatched exactly
waypoints `0..i-1` as blocking goal-pose commands in order, and the
Locomotion slot ends Idle; if no obstacle is reported and every waypoint
succeeds, it returns `Completed` having dispatched the whole path in
order. -/
theorem move_along_path_obstacle_and_completion (env : Collaborators)
    (st : TrackerState) (poses : List PoseStamped)
    (h0 : st.get .Locomotion = []) (hne : poses ≠ []) :
    (∀ i, i < poses.length →
      (∀ j, j < i → env.obstacle j = false ∧ env.goalOutcome j = true) →
      env.obstacle i = true →
      move_along_path env st poses =
        (.ok (.Aborted (if i = 0 then none else some (i - 1))),
         (move_stop env st).2,
         (poses.take i).map (fun p => ActuationCall.goal p.pose) ++ [.stop]) ∧
      ((move_along_path env st poses).2.1.get .Locomotion = [])) ∧
    ((∀ j, j < poses.length → env.obstacle j = false ∧ env.goalOutcome j = true) →
      move_along_path env st poses =
        (.ok .Completed, st, poses.map (fun p => ActuationCall.goal p.pose))) := by
  have hpath : move_along_path env st poses = followFrom env st 0 poses := by
    cases poses with
    | nil => exact absurd rfl hne
    | cons p ps => rfl
  constructor
  · intro i hi hbefore hob
    have habort := followFrom_aborted env poses i st 0 h0 hi
      (by intro j hj; simpa using hbefore j hj)
      (by simpa using hob)
    simp only [Nat.zero_add] at habort
    rw [hpath, habort]
    refine ⟨rfl, ?_⟩
    unfold move_stop
    cases hr : env.reachable with
    | true =>
      simp only [if_true]
      exact get_upd_self st .Locomotion []
    | false =>
      simp only [Bool.false_eq_true, if_false]
      exact h0
  · intro hall
    have := followFrom_completed env poses st 0 h0
      (by intro j hj; simpa using hall j hj)
    rw [hpath, this]

theorem move_along_path_obstacle_and_completion_witness :
    (move_along_path envW initialTracker [wp 0, wp 1, wp 2] =
      (.ok (.Aborted (some 1)),
       (move_stop envW initialTracker).2,
       [.goal (wp 0).pose, .goal (wp 1).pose, .stop]) ∧
     (move_along_path envW initialTracker [wp 0, wp 1, wp 2]).2.1.get .Locomotion = []) ∧
    move_along_path envHolo initialTracker [wp 0, wp 1] =
      (.ok .Completed, initialTracker, [.goal (wp 0).pose, .goal (wp 1).pose]) := by
  constructor
  · have h := (move_along_path_obstacle_and_completion envW initialTracker
      [wp 0, wp 1, wp 2] rfl (by simp)).1 2 (by decide) (by decide) (by decide)
    simpa using h
  · have h := (move_along_path_obstacle_and_completion envHolo initialTracker
      [wp 0, wp 1] rfl (by simp)).2 (by decide)
    simpa using h

/-- C7: `move_along_path` on the empty path fails with `InvalidPath`, makes
no Actuation call and leaves the tracker state unchanged. -/
theorem move_along_path_empty_invalid (env : Collaborators) (st : TrackerState) :
    move_along_path env st [] = (.error .InvalidPath, st, []) := rfl

/-- C8: the 3-parameter `move_vel` on a non-holonomic base fails
`UnsupportedMotionMode` without contacting Actuation; the 2-parameter form
is the valid one there and queue-replaces on the Locomotion slot, touching
no other slot; on a holonomic base the 3-parameter form also routes to the
Locomotion slot. -/
theorem move_vel_mode_mismatch (env envH : Collaborators) (st : TrackerState)
    (x y theta : ℚ) (h : env.holonomic = false) (hH : envH.holonomic = true) :
    (move_vel3 env st x y theta).1 = .error .UnsupportedMotionMode ∧
    (move_vel3 env st x y theta).2.2 = [] ∧
    (move_vel2 env st x theta).1 = .ok () ∧
    (move_vel2 env st x theta).2.1 = dispatchBackground st .Locomotion .Velocity ∧
    (move_vel3 envH st x y theta).1 = .ok () ∧
    (move_vel3 envH st x y theta).2.1 = dispatchBackground st .Locomotion .Velocity ∧
    (move_vel2 env st x theta).2.1.arms = st.arms ∧
    (move_vel2 env st x theta).2.1.head = st.head := by
  unfold move_vel3 move_vel2
  rw [h, hH]
  exact ⟨rfl, rfl, rfl, rfl, rfl, rfl, rfl, rfl⟩

theorem move_vel_mode_mismatch_witness :
    (move_vel3 envW initialTracker 1 2 3).1 = .error .UnsupportedMotionMode ∧
    (move_vel3 envW initialTracker 1 2 3).2.2 = [] ∧
    (move_vel2 envW initialTracker 1 3).1 = .ok () ∧
    (move_vel2 envW initialTracker 1 3).2.1 =
      dispatchBackground initialTracker .Locomotion .Velocity ∧
    (move_vel3 envHolo initialTracker 1 2 3).1 = .ok () ∧
    (move_vel3 envHolo initialTracker 1 2 3).2.1 =
      dispatchBackground initialTracker .Locomotion .Velocity ∧
    (move_vel2 envW initialTracker 1 3).2.1.arms = initialTracker.arms ∧
    (move_vel2 envW initialTracker 1 3).2.1.head = initialTracker.head :=
  move_vel_mode_mismatch envW envHolo initialTracker 1 2 3 rfl rfl

/-- C9: with the Localization collaborator stubbed as identity storage,
`set_global_pose p` followed by `get_global_pose` returns a stamped pose
whose pose component equals `p` whenever the collaborator accepts `p`, and
`set_global_pose` succeeds exactly when the collaborator accepts the
correction. -/
theorem set_get_global_pose_roundtrip (env : Collaborators) (loc : LocState)
    (p : Pose) (hacc : env.acceptPose p = true) :
    (set_global_pose env loc p).1 = true ∧
    (get_global_pose (set_global_pose env loc p).2).1.pose = p ∧
    ∀ q : Pose, (set_global_pose env loc q).1 = env.acceptPose q := by
  unfold set_global_pose get_global_pose
  rw [hacc]
  refine ⟨rfl, rfl, ?_⟩
  intro q
  by_cases hq : env.acceptPose q = true <;> simp [hq]

theorem set_get_global_pose_roundtrip_witness :
    (set_global_pose envW ⟨⟨0, 0, 0, 0⟩, 5, 7⟩ ⟨1, 2, 3, 4⟩).1 = true ∧
    (get_global_pose (set_global_pose envW ⟨⟨0, 0, 0, 0⟩, 5, 7⟩ ⟨1, 2, 3, 4⟩).2).1.pose
      = ⟨1, 2, 3, 4⟩ ∧
    ∀ q : Pose, (set_global_pose envW ⟨⟨0, 0, 0, 0⟩, 5, 7⟩ q).1 = envW.acceptPose q :=
  set_get_global_pose_roundtrip envW ⟨⟨0, 0, 0, 0⟩, 5, 7⟩ ⟨1, 2, 3, 4⟩ rfl

/-- C10: the pose getter and setter are type-asymmetric — the setter takes
a bare `Pose` while the getter returns a `PoseStamped`; in the set/get
round-trip only the pose component can agree, and the stamp metadata is
produced fresh by the getter from the collaborator state, independent of
which pose was pushed. -/
theorem get_set_pose_type_asymmetry (env : Collaborators) (loc : LocState)
    (p q : Pose) (hp : env.acceptPose p = true) (hq : env.acceptPose q = true) :
    (get_global_pose (set_global_pose env loc p).2).1.pose = p ∧
    (get_global_pose (set_global_pose env loc p).2).1.header =
      (get_global_pose (set_global_pose env loc q).2).1.header ∧
    (get_global_pose (set_global_pose env loc p).2).1.header =
      ⟨loc.seqCounter, loc.clock⟩ := by
  unfold set_global_pose get_global_pose
  rw [hp, hq]
  exact ⟨rfl, rfl, rfl⟩

theorem get_set_pose_type_asymmetry_witness :
    (get_global_pose (set_global_pose envW ⟨⟨0, 0, 0, 0⟩, 5, 7⟩ ⟨1, 2, 3, 4⟩).2).1.pose
      = ⟨1, 2, 3, 4⟩ ∧
    (get_global_pose (set_global_pose envW ⟨⟨0, 0, 0, 0⟩, 5, 7⟩ ⟨1, 2, 3, 4⟩).2).1.header =
      (get_global_pose (set_global_pose envW ⟨⟨0, 0, 0, 0⟩, 5, 7⟩ ⟨9, 9, 9, 9⟩).2).1.header ∧
    (get_global_pose (set_global_pose envW ⟨⟨0, 0, 0, 0⟩, 5, 7⟩ ⟨1, 2, 3, 4⟩).2).1.header =
      ⟨5, 7⟩ :=
  get_set_pose_type_asymmetry envW ⟨⟨0, 0, 0, 0⟩, 5, 7⟩ ⟨1, 2, 3, 4⟩ ⟨9, 9, 9, 9⟩ rfl rfl

end RappNav
